import Mathlib

/-!
Shallow embedding of the slack-mcp repository: the SlackService capability
client (src/auth.ts second part), the REST route handlers (createApp), the
MCP tool handlers (createMcpServer) and the MCP transport dispatcher
(mountMcp), together with proofs of the specification claims.
-/

/-- A JSON value, as produced by the JavaScript object literals in the code. -/
inductive Json where
  | null : Json
  | bool (b : Bool) : Json
  | num (n : Int) : Json
  | str (s : String) : Json
  | arr (xs : List Json) : Json
  | obj (fields : List (String × Json)) : Json
deriving Repr

/-- Escape one character the way JSON.stringify does for the characters that
can occur in this development (quote, backslash, newline, tab, CR). -/
def escapeJsonChar (c : Char) : String :=
  if c = '"' then "\\\""
  else if c = '\\' then "\\\\"
  else if c = '\n' then "\\n"
  else if c = '\t' then "\\t"
  else if c = '\r' then "\\r"
  else String.singleton c

/-- JSON string literal serialization. -/
def jsonQuote (s : String) : String :=
  "\"" ++ String.join (s.data.map escapeJsonChar) ++ "\""

mutual
/-- JSON.stringify on the Json model. -/
def Json.stringify : Json → String
  | .null => "null"
  | .bool b => if b then "true" else "false"
  | .num n => toString n
  | .str s => jsonQuote s
  | .arr xs => "[" ++ stringifyArr xs ++ "]"
  | .obj fs => "\x7b" ++ stringifyObj fs ++ "\x7d"

def stringifyArr : List Json → String
  | [] => ""
  | [x] => Json.stringify x
  | x :: xs => Json.stringify x ++ "," ++ stringifyArr xs

def stringifyObj : List (String × Json) → String
  | [] => ""
  | [(k, v)] => jsonQuote k ++ ":" ++ Json.stringify v
  | (k, v) :: fs => jsonQuote k ++ ":" ++ Json.stringify v ++ "," ++ stringifyObj fs
end

/-- JavaScript string truthiness for an optional string header/field:
undefined and the empty string are falsy. -/
def truthyStr : Option String → Bool
  | none => false
  | some s => s ≠ ""

/-- JavaScript `a || b` for an optional string against a string default:
undefined and "" fall through to the default. -/
def jsOrStr (v : Option String) (d : String) : String :=
  match v with
  | some s => if s = "" then d else s
  | none => d

/-- JavaScript falsiness of a Json value (null, false, 0, "" are falsy). -/
def jsFalsy : Json → Bool
  | .null => true
  | .bool b => !b
  | .num n => n = 0
  | .str s => s = ""
  | _ => false

/-- JavaScript `a || b` on an optional Json value. -/
def jsOrJson (v : Option Json) (d : Json) : Json :=
  match v with
  | some j => if jsFalsy j then d else j
  | none => d

/-- A JavaScript number as this code can produce one: an integer or NaN
(parseInt on a non-numeric string). -/
inductive JsNum where
  | nan : JsNum
  | int (n : Int) : JsNum
deriving DecidableEq, Repr

/-- Decimal digits prefix of a character list, as parseInt reads it. -/
def digitsPrefix : List Char → List Char
  | [] => []
  | c :: cs => if c.isDigit then c :: digitsPrefix cs else []

/-- Numeric value of a list of decimal digits. -/
def digitsVal : List Char → Nat
  | [] => 0
  | c :: cs => (c.toNat - '0'.toNat) * 10 ^ cs.length + digitsVal cs

/-- JavaScript parseInt(s, 10): skip leading whitespace, optional sign, read
the leading run of decimal digits; NaN when that run is empty, otherwise the
signed value (trailing garbage ignored). -/
def parseIntJs (s : String) : JsNum :=
  let t := s.data.dropWhile (fun c => c = ' ' ∨ c = '\t' ∨ c = '\n' ∨ c = '\r')
  match t with
  | '-' :: rest =>
      let ds := digitsPrefix rest
      if ds = [] then .nan else .int (-(digitsVal ds : Int))
  | '+' :: rest =>
      let ds := digitsPrefix rest
      if ds = [] then .nan else .int (digitsVal ds)
  | _ =>
      let ds := digitsPrefix t
      if ds = [] then .nan else .int (digitsVal ds)

/-- Contiguous-sublist check on character lists (needle occurs in hay). -/
def infixOfChars (needle : List Char) : List Char → Bool
  | [] => needle.isEmpty
  | c :: t => needle.isPrefixOf (c :: t) || infixOfChars needle t

/-- JavaScript `hay.includes(needle)`: substring containment. -/
def strIncludes (hay needle : String) : Bool :=
  infixOfChars needle.data hay.data

/-- JavaScript toLowerCase, modelled characterwise (ASCII lowering). -/
def lowerStr (s : String) : String :=
  String.mk (s.data.map Char.toLower)

/-- Outcome of one upstream WebClient call: it resolves with a value, or it
throws an error object carrying an optional err.data.error and an
err.message. -/
inductive UpstreamOutcome (α : Type) where
  | ok (value : α)
  | thrown (dataError : Option String) (message : String)

/-- Fields of a resolved chat.postMessage result that the code reads. -/
structure PostMessageOk where
  ts : String
  channel : String

/-- Fields of a resolved conversations.history result that the code reads:
result.messages (an array, possibly absent) and
result.response_metadata?.next_cursor. -/
structure HistoryOk where
  messages : Option Json
  next_cursor : Option String

/-- Fields of a resolved search.messages result that the code reads. -/
structure SearchOk where
  messages : Option Json

/-- One element of users.list members: the three fields the code reads plus
the remaining upstream fields, which the code never touches. -/
structure Member where
  id : Option String
  name : Option String
  real_name : Option String
  extra : List (String × Json)

/-- Fields of a resolved users.list result that the code reads. -/
structure UsersListOk where
  members : Option (List Member)

/-- Fields of a resolved conversations.open result that the code reads:
(result.channel as any)?.id. -/
structure OpenDmOk where
  channelId : Option String

/-- The normalized result every SlackService operation returns (ApiResponse
in types.ts): ok:true with operation-specific fields, or ok:false with an
error code and a detail message. -/
inductive ApiResponse where
  | success (fields : List (String × Json))
  | failure (error : String) (detail : String)

/-- The JSON object a given ApiResponse denotes (the object literal the code
builds: ok first, then the other fields). -/
def ApiResponse.toJson : ApiResponse → Json
  | .success fields => .obj (("ok", .bool true) :: fields)
  | .failure e d => .obj [("ok", .bool false), ("error", .str e), ("detail", .str d)]

/-- HTTP status chosen by the REST handlers: result.ok picks 200, else 500. -/
def ApiResponse.httpStatus : ApiResponse → Nat
  | .success _ => 200
  | .failure _ _ => 500

/-- One call made to the upstream WebClient, with the arguments passed. -/
inductive UpstreamCall where
  | postMessage (channel text : String)
  | conversationsHistory (channel : String) (limit : JsNum) (cursor : Option String)
  | searchMessagesApi (query : String) (count : JsNum)
  | usersList
  | conversationsOpen (users : String)
deriving DecidableEq, Repr

/-- One invocation of a SlackService operation, with the arguments passed
(None for an argument the caller omitted). -/
inductive CapCall where
  | sendMessage (channel text : String)
  | getChannelHistory (channel : String) (limit : Option JsNum) (cursor : Option String)
  | searchMessages (query : String) (count : Option JsNum)
  | searchUsers (query : String)
  | openDm (userId : String)
deriving DecidableEq, Repr

namespace SlackService

/-- SlackService.sendMessage: posts the message; on a thrown upstream error
returns ok:false with err.data.error or the fallback code slack_error. -/
def sendMessage (channel text : String) (up : UpstreamOutcome PostMessageOk) :
    ApiResponse × List UpstreamCall :=
  match up with
  | .ok r =>
      (.success [("ts", .str r.ts), ("channel", .str r.channel)],
       [.postMessage channel text])
  | .thrown de m =>
      (.failure (jsOrStr de "slack_error") m, [.postMessage channel text])

/-- result.response_metadata?.next_cursor or null: a missing or empty cursor
becomes JSON null. -/
def nextCursorJson (c : Option String) : Json :=
  match c with
  | some s => if s = "" then .null else .str s
  | none => .null

/-- SlackService.getChannelHistory: limit defaults to 20 when the caller
omits it; forwards channel, limit and cursor to conversations.history.
(The choice between userClient and the bot client is not observable here.) -/
def getChannelHistory (channel : String) (limit : Option JsNum) (cursor : Option String)
    (up : UpstreamOutcome HistoryOk) : ApiResponse × List UpstreamCall :=
  let lim := limit.getD (.int 20)
  match up with
  | .ok r =>
      (.success [("messages", jsOrJson r.messages (.arr [])),
                 ("next_cursor", nextCursorJson r.next_cursor)],
       [.conversationsHistory channel lim cursor])
  | .thrown de m =>
      (.failure (jsOrStr de "slack_error") m, [.conversationsHistory channel lim cursor])

/-- SlackService.searchMessages: count defaults to 20 when the caller omits
it; result.messages falls back to an empty matches object. -/
def searchMessages (query : String) (count : Option JsNum) (up : UpstreamOutcome SearchOk) :
    ApiResponse × List UpstreamCall :=
  let c := count.getD (.int 20)
  match up with
  | .ok r =>
      (.success [("messages", jsOrJson r.messages
          (.obj [("matches", .arr []), ("total", .num 0)]))],
       [.searchMessagesApi query c])
  | .thrown de m =>
      (.failure (jsOrStr de "slack_error") m, [.searchMessagesApi query c])

/-- The filter predicate of SlackService.searchUsers:
u.real_name?.toLowerCase().includes(query.toLowerCase()) or the same on
u.name (a missing field is falsy via optional chaining). -/
def memberMatches (query : String) (u : Member) : Bool :=
  (match u.real_name with
   | some r => strIncludes (lowerStr r) (lowerStr query)
   | none => false) ||
  (match u.name with
   | some n => strIncludes (lowerStr n) (lowerStr query)
   | none => false)

/-- The projection of SlackService.searchUsers: the object with keys id,
name, real_name (a key whose value is undefined is omitted, as the JSON
serialization of the object omits it). -/
def memberProjection (u : Member) : Json :=
  .obj (([("id", u.id), ("name", u.name), ("real_name", u.real_name)]).filterMap
    (fun p => p.2.map (fun v => (p.1, Json.str v))))

/-- SlackService.searchUsers: lists all users upstream, filters by the
case-insensitive substring predicate on real_name or name, projects each
match to id, name, real_name; always ok:true when the upstream call
resolves. -/
def searchUsers (query : String) (up : UpstreamOutcome UsersListOk) :
    ApiResponse × List UpstreamCall :=
  match up with
  | .ok r =>
      let users := (r.members.getD []).filter (memberMatches query)
      (.success [("users", .arr (users.map memberProjection))], [.usersList])
  | .thrown de m =>
      (.failure (jsOrStr de "slack_error") m, [.usersList])

/-- SlackService.openDm: opens the conversation; the channel field is
(result.channel as any)?.id, omitted from the object when undefined. -/
def openDm (userId : String) (up : UpstreamOutcome OpenDmOk) :
    ApiResponse × List UpstreamCall :=
  match up with
  | .ok r =>
      (.success (match r.channelId with
        | some c => [("channel", Json.str c)]
        | none => []),
       [.conversationsOpen userId])
  | .thrown de m =>
      (.failure (jsOrStr de "slack_error") m, [.conversationsOpen userId])

end SlackService

/-- A response body: JSON (res.json) or plain text (res.status(..).send). -/
inductive Body where
  | json (j : Json)
  | text (s : String)

/-- An HTTP response written by a handler: status code and body. -/
structure HttpResponse where
  status : Nat
  body : Body

/-- Decision of the requireApiKey middleware: call next(), or short-circuit
with a response. -/
inductive AuthDecision where
  | passThrough
  | reject (r : HttpResponse)

/-- The REST 401 body sent by requireApiKey. -/
def unauthorizedRestBody : Json :=
  .obj [("ok", .bool false), ("error", .str "unauthorized"),
        ("detail", .str "Missing or invalid API key")]

/-- requireApiKey (auth.ts): strict comparison of the x-api-key header with
the configured key; absence or mismatch yields 401 with the unauthorized
body, a match calls next(). -/
def requireApiKey (apiKey : String) (provided : Option String) : AuthDecision :=
  if provided = some apiKey then .passThrough
  else .reject ⟨401, .json unauthorizedRestBody⟩

/-- Outcome of a REST route: the response written, and the SlackService
invocations made while handling it. -/
structure RestOutcome where
  response : HttpResponse
  capCalls : List CapCall

/-- The request body of POST /api/messages/send as the handler reads it. -/
structure SendBody where
  channel : Option String
  text : Option String

/-- POST /api/messages/send behind the requireApiKey middleware: missing or
empty channel or text yields 400 bad_request without calling the client;
otherwise sendMessage is invoked and its result returned with status 200 or
500. -/
def sendMessageRoute (apiKey : String) (provided : Option String) (body : SendBody)
    (up : UpstreamOutcome PostMessageOk) : RestOutcome :=
  match requireApiKey apiKey provided with
  | .reject r => ⟨r, []⟩
  | .passThrough =>
      if ¬ truthyStr body.channel ∨ ¬ truthyStr body.text then
        ⟨⟨400, .json (.obj [("ok", .bool false), ("error", .str "bad_request"),
            ("detail", .str "channel and text are required")])⟩, []⟩
      else
        let ch := body.channel.getD ""
        let tx := body.text.getD ""
        let result := (SlackService.sendMessage ch tx up).1
        ⟨⟨result.httpStatus, .json result.toJson⟩, [.sendMessage ch tx]⟩

/-- GET /api/channels/:channelId/history behind requireApiKey: limit is
parseInt(req.query.limit or "20", 10), cursor is req.query.cursor or
undefined; the client result is returned with status 200 or 500. -/
def channelHistoryRoute (apiKey : String) (provided : Option String) (channelId : String)
    (limitQ cursorQ : Option String) (up : UpstreamOutcome HistoryOk) : RestOutcome :=
  match requireApiKey apiKey provided with
  | .reject r => ⟨r, []⟩
  | .passThrough =>
      let limit := parseIntJs (jsOrStr limitQ "20")
      let cursor := if truthyStr cursorQ then cursorQ else none
      let result := (SlackService.getChannelHistory channelId (some limit) cursor up).1
      ⟨⟨result.httpStatus, .json result.toJson⟩,
       [.getChannelHistory channelId (some limit) cursor]⟩

/-- GET /api/search behind requireApiKey: a missing or empty query yields
400 bad_request without calling the client; otherwise searchMessages is
invoked with count parseInt(count or "20", 10). -/
def searchRoute (apiKey : String) (provided : Option String)
    (queryQ countQ : Option String) (up : UpstreamOutcome SearchOk) : RestOutcome :=
  match requireApiKey apiKey provided with
  | .reject r => ⟨r, []⟩
  | .passThrough =>
      if ¬ truthyStr queryQ then
        ⟨⟨400, .json (.obj [("ok", .bool false), ("error", .str "bad_request"),
            ("detail", .str "query parameter is required")])⟩, []⟩
      else
        let q := queryQ.getD ""
        let c := parseIntJs (jsOrStr countQ "20")
        let result := (SlackService.searchMessages q (some c) up).1
        ⟨⟨result.httpStatus, .json result.toJson⟩, [.searchMessages q (some c)]⟩

/-- One content item of an MCP tool reply. -/
structure ToolContent where
  type : String
  text : String
deriving DecidableEq, Repr

/-- An MCP tool reply: the handlers return a content list and never set the
isError flag, so isError is false (a successful RPC reply). -/
structure ToolReply where
  content : List ToolContent
  isError : Bool
deriving DecidableEq, Repr

namespace McpTools

/-- The send_message tool: invokes sendMessage and wraps the result, success
or failure alike, as a text content item holding JSON.stringify(result). -/
def send_message (channel text : String) (up : UpstreamOutcome PostMessageOk) :
    ToolReply × List CapCall :=
  let result := (SlackService.sendMessage channel text up).1
  (⟨[⟨"text", result.toJson.stringify⟩], false⟩, [.sendMessage channel text])

/-- The read_dm_history tool: zod gives limit the default 20 when the caller
omits it; invokes getChannelHistory with no cursor and wraps the result. -/
def read_dm_history (channel_id : String) (limit : Option JsNum)
    (up : UpstreamOutcome HistoryOk) : ToolReply × List CapCall :=
  let lim := limit.getD (.int 20)
  let result := (SlackService.getChannelHistory channel_id (some lim) none up).1
  (⟨[⟨"text", result.toJson.stringify⟩], false⟩,
   [.getChannelHistory channel_id (some lim) none])

/-- The search_messages tool: zod gives count the default 20 when the caller
omits it; invokes searchMessages and wraps the result. -/
def search_messages (query : String) (count : Option JsNum)
    (up : UpstreamOutcome SearchOk) : ToolReply × List CapCall :=
  let c := count.getD (.int 20)
  let result := (SlackService.searchMessages query (some c) up).1
  (⟨[⟨"text", result.toJson.stringify⟩], false⟩, [.searchMessages query (some c)])

/-- The find_user tool: invokes searchUsers and wraps the result. -/
def find_user (query : String) (up : UpstreamOutcome UsersListOk) :
    ToolReply × List CapCall :=
  let result := (SlackService.searchUsers query up).1
  (⟨[⟨"text", result.toJson.stringify⟩], false⟩, [.searchUsers query])

/-- The open_dm tool: invokes openDm and wraps the result. -/
def open_dm (user_id : String) (up : UpstreamOutcome OpenDmOk) :
    ToolReply × List CapCall :=
  let result := (SlackService.openDm user_id up).1
  (⟨[⟨"text", result.toJson.stringify⟩], false⟩, [.openDm user_id])

end McpTools

/-- The module-level session registry of mountMcp: the transports Map from
session id to its StreamableHTTPServerTransport, modelled as an association
list from id to a transport instance number, plus the counter handing out
instance numbers to newly constructed transports. A JavaScript Map holds at
most one entry per key; mapSet and mapDelete preserve that shape. -/
structure McpState where
  transports : List (String × Nat)
  nextTransport : Nat

/-- Map.get: the value bound to the key, if any. -/
def mapGet : List (String × Nat) → String → Option Nat
  | [], _ => none
  | p :: m, k => if p.1 = k then some p.2 else mapGet m k

/-- Map.set: replace the binding of the key in place, or append a new one. -/
def mapSet : List (String × Nat) → String → Nat → List (String × Nat)
  | [], k, v => [(k, v)]
  | p :: m, k, v => if p.1 = k then (k, v) :: m else p :: mapSet m k v

/-- Map.delete: drop the binding of the key. -/
def mapDelete : List (String × Nat) → String → List (String × Nat)
  | [], _ => []
  | p :: m, k => if p.1 = k then mapDelete m k else p :: mapDelete m k

/-- One inbound request to the /mcp endpoint as the handlers read it: the
x-api-key header, the mcp-session-id header, and the verdict of the
externally supplied isInitializeRequest predicate on the body. -/
structure McpRequest where
  apiKeyHeader : Option String
  sessionIdHeader : Option String
  bodyIsInit : Bool

/-- How the awaited transport.handleRequest call behaves for this request:
it resolves after writing the response, or it rejects with a fault, with
res.headersSent telling whether a response had already been started. -/
inductive ForwardBehavior where
  | completes
  | faults (headersSent : Bool)

/-- What a route handler left behind: a response it wrote itself, a response
completed by transport t, a fault after headers were sent that the catch
swallows, or a fault that escaped the handler uncaught. -/
inductive HandlerResult where
  | sent (r : HttpResponse)
  | delegated (t : Nat)
  | faultAfterHeaders (t : Nat)
  | escapedFault (t : Nat)

/-- The JSON-RPC error envelope the handlers build. -/
def jsonRpcError (code : Int) (message : String) : Json :=
  .obj [("jsonrpc", .str "2.0"),
        ("error", .obj [("code", .num code), ("message", .str message)]),
        ("id", .null)]

/-- The 401 response of mountMcp's checkAuth. -/
def mcpUnauthorizedResponse : HttpResponse :=
  ⟨401, .json (jsonRpcError (-32000) "Unauthorized: invalid or missing API key")⟩

/-- The 400 response of the POST /mcp else-branch. -/
def mcpBadRequestResponse : HttpResponse :=
  ⟨400, .json (jsonRpcError (-32000) "Bad request: missing session ID or not an init request")⟩

/-- The 500 response of the POST /mcp catch. -/
def mcpInternalErrorResponse : HttpResponse :=
  ⟨500, .json (jsonRpcError (-32603) "Internal server error")⟩

/-- The 400 plain-text response of GET /mcp and DELETE /mcp. -/
def invalidSessionText : HttpResponse :=
  ⟨400, .text "Invalid or missing session ID"⟩

/-- mountMcp's checkAuth comparison: strict equality of the x-api-key header
with the configured key. -/
def mcpCheckAuth (apiKey : String) (provided : Option String) : Bool :=
  provided = some apiKey

/-- Everything a POST /mcp handler run produced: the handler result, which
transport (if any) the request was forwarded to, and the registry state
afterwards. -/
structure McpPostResult where
  result : HandlerResult
  forwardedTo : Option Nat
  state : McpState

/-- Outcome of GET /mcp and DELETE /mcp, which never mutate the registry
entry themselves (teardown happens through the transport's onclose). -/
structure McpSimpleResult where
  result : HandlerResult
  forwardedTo : Option Nat

/-- app.post "/mcp": auth check; then reuse the live transport of a truthy
known session id, or create a transport under a fresh random id when the id
is absent (JS-falsy) and the body is an initialize request, or reject with
the 400 envelope; forwarding is wrapped in the catch that sends the -32603
envelope when a fault arrives before any response was sent. -/
def mcpPost (apiKey : String) (req : McpRequest) (freshId : String)
    (fwd : ForwardBehavior) (st : McpState) : McpPostResult :=
  if mcpCheckAuth apiKey req.apiKeyHeader = false then
    ⟨.sent mcpUnauthorizedResponse, none, st⟩
  else
    match (if truthyStr req.sessionIdHeader
           then mapGet st.transports (req.sessionIdHeader.getD "")
           else none) with
    | some t =>
        ⟨(match fwd with
          | .completes => .delegated t
          | .faults false => .sent mcpInternalErrorResponse
          | .faults true => .faultAfterHeaders t), some t, st⟩
    | none =>
        if truthyStr req.sessionIdHeader = false ∧ req.bodyIsInit = true then
          let t := st.nextTransport
          let st2 : McpState := ⟨mapSet st.transports freshId t, st.nextTransport + 1⟩
          ⟨(match fwd with
            | .completes => .delegated t
            | .faults false => .sent mcpInternalErrorResponse
            | .faults true => .faultAfterHeaders t), some t, st2⟩
        else
          ⟨.sent mcpBadRequestResponse, none, st⟩

/-- app.get "/mcp" and app.delete "/mcp" (their bodies are identical): auth
check; a falsy or unknown session id is rejected with 400 plain text;
otherwise the request is forwarded with no catch installed, so a fault
escapes the handler. -/
def mcpGetDelete (apiKey : String) (req : McpRequest) (fwd : ForwardBehavior)
    (st : McpState) : McpSimpleResult :=
  if mcpCheckAuth apiKey req.apiKeyHeader = false then
    ⟨.sent mcpUnauthorizedResponse, none⟩
  else
    match (if truthyStr req.sessionIdHeader
           then mapGet st.transports (req.sessionIdHeader.getD "")
           else none) with
    | none => ⟨.sent invalidSessionText, none⟩
    | some t =>
        ⟨(match fwd with
          | .completes => .delegated t
          | .faults _ => .escapedFault t), some t⟩

/-- The onclose callback installed at session creation:
transports.delete(newSessionId). The transport fires it when it closes
(DELETE handling, connection drop, or engine-initiated close). -/
def mcpCloseEvent (id : String) (st : McpState) : McpState :=
  ⟨mapDelete st.transports id, st.nextTransport⟩

/-- One event touching the registry: a POST /mcp request (with the random id
its create branch would use and the forwarding behavior), a GET or DELETE
request, or an onclose teardown firing. -/
inductive McpEvent where
  | post (req : McpRequest) (freshId : String) (fwd : ForwardBehavior)
  | getOrDelete (req : McpRequest) (fwd : ForwardBehavior)
  | close (id : String)

/-- Registry state after one event. -/
def stepState (apiKey : String) (st : McpState) : McpEvent → McpState
  | .post req fid fwd => (mcpPost apiKey req fid fwd st).state
  | .getOrDelete _ _ => st
  | .close id => mcpCloseEvent id st

/-- Registry state after a sequence of events. -/
def runEvents (apiKey : String) (st : McpState) (evs : List McpEvent) : McpState :=
  evs.foldl (stepState apiKey) st

/-- The event is an onclose teardown for this id. -/
def closesId (id : String) : McpEvent → Bool
  | .close i => i = id
  | _ => false

/-- The event is a POST whose create branch would use this id as its fresh
random id (randomUUID never repeats an issued id). -/
def postWithFreshId (id : String) : McpEvent → Bool
  | .post _ fid _ => fid = id
  | _ => false

/-- Registry wellformedness: at most one live session per id (the Map keys
are distinct) and every bound transport instance was handed out by the
counter. -/
def WFReg (st : McpState) : Prop :=
  (st.transports.map Prod.fst).Nodup ∧ ∀ p ∈ st.transports, p.2 < st.nextTransport

theorem mapGet_mapSet (m : List (String × Nat)) (k k' : String) (v : Nat) :
    mapGet (mapSet m k v) k' = if k' = k then some v else mapGet m k' := by
  induction m with
  | nil =>
      simp only [mapSet, mapGet]
      split_ifs <;> first | rfl | (subst_vars; simp_all)
  | cons p m ih =>
      by_cases hp : p.1 = k
      · simp only [mapSet, if_pos hp, mapGet]
        split_ifs <;> first | rfl | (subst_vars; simp_all)
      · simp only [mapSet, if_neg hp, mapGet, ih]
        split_ifs <;> first | rfl | (subst_vars; simp_all)

theorem mapGet_mapDelete (m : List (String × Nat)) (k k' : String) :
    mapGet (mapDelete m k) k' = if k' = k then none else mapGet m k' := by
  induction m with
  | nil =>
      simp only [mapDelete, mapGet]
      split_ifs <;> rfl
  | cons p m ih =>
      by_cases hp : p.1 = k
      · simp only [mapDelete, if_pos hp, ih, mapGet]
        split_ifs <;> first | rfl | (subst_vars; simp_all)
      · simp only [mapDelete, if_neg hp, mapGet, ih]
        split_ifs <;> first | rfl | (subst_vars; simp_all)

theorem mapGet_eq_none_iff (m : List (String × Nat)) (k : String) :
    mapGet m k = none ↔ ∀ p ∈ m, p.1 ≠ k := by
  induction m with
  | nil => simp [mapGet]
  | cons p m ih =>
      by_cases hp : p.1 = k
      · simp [mapGet, hp]
      · simp [mapGet, hp, ih]

theorem mapSet_of_get_none (m : List (String × Nat)) (k : String) (v : Nat)
    (h : mapGet m k = none) : mapSet m k v = m ++ [(k, v)] := by
  induction m with
  | nil => rfl
  | cons p m ih =>
      by_cases hp : p.1 = k
      · simp [mapGet, hp] at h
      · simp only [mapGet, if_neg hp] at h
        simp [mapSet, hp, ih h]

theorem mcpPost_state_cases (apiKey : String) (req : McpRequest) (fid : String)
    (fwd : ForwardBehavior) (st : McpState) :
    (mcpPost apiKey req fid fwd st).state = st ∨
    (mcpPost apiKey req fid fwd st).state
      = ⟨mapSet st.transports fid st.nextTransport, st.nextTransport + 1⟩ := by
  unfold mcpPost
  split
  · exact Or.inl rfl
  · split
    · exact Or.inl rfl
    · split
      · exact Or.inr rfl
      · exact Or.inl rfl

theorem mapGet_stepState (apiKey : String) (st : McpState) (e : McpEvent) (id : String)
    (hfresh : postWithFreshId id e = false) (hclose : closesId id e = false) :
    mapGet (stepState apiKey st e).transports id = mapGet st.transports id := by
  cases e with
  | post req fid fwd =>
      have hfid : fid ≠ id := by simpa [postWithFreshId] using hfresh
      rcases mcpPost_state_cases apiKey req fid fwd st with h | h
      · simp [stepState, h]
      · simp only [stepState, h]
        rw [mapGet_mapSet, if_neg (fun hh => hfid hh.symm)]
  | getOrDelete req fwd => rfl
  | close i =>
      have hi : i ≠ id := by simpa [closesId] using hclose
      simp only [stepState, mcpCloseEvent]
      rw [mapGet_mapDelete, if_neg (fun hh => hi hh.symm)]

theorem mapGet_none_stepState (apiKey : String) (st : McpState) (e : McpEvent) (id : String)
    (hfresh : postWithFreshId id e = false)
    (h0 : mapGet st.transports id = none) :
    mapGet (stepState apiKey st e).transports id = none := by
  cases e with
  | post req fid fwd =>
      have hfid : fid ≠ id := by simpa [postWithFreshId] using hfresh
      rcases mcpPost_state_cases apiKey req fid fwd st with h | h
      · simp [stepState, h, h0]
      · simp only [stepState, h]
        rw [mapGet_mapSet, if_neg (fun hh => hfid hh.symm)]
        exact h0
  | getOrDelete req fwd => simpa [stepState] using h0
  | close i =>
      simp only [stepState, mcpCloseEvent]
      rw [mapGet_mapDelete]
      by_cases hi : id = i
      · simp [hi]
      · simp [hi, h0]

theorem runEvents_cons (apiKey : String) (st : McpState) (e : McpEvent)
    (evs : List McpEvent) :
    runEvents apiKey st (e :: evs) = runEvents apiKey (stepState apiKey st e) evs := rfl

theorem mapGet_runEvents (apiKey : String) (id : String) (t : Nat) :
    ∀ (evs : List McpEvent) (st : McpState),
      mapGet st.transports id = some t →
      (∀ e ∈ evs, closesId id e = false ∧ postWithFreshId id e = false) →
      mapGet (runEvents apiKey st evs).transports id = some t := by
  intro evs
  induction evs with
  | nil => intro st h _; simpa [runEvents] using h
  | cons e evs ih =>
      intro st h hall
      have he := hall e (List.mem_cons_self e evs)
      rw [runEvents_cons]
      exact ih _ (by rw [mapGet_stepState apiKey st e id he.2 he.1]; exact h)
        (fun e' he' => hall e' (List.mem_cons_of_mem e he'))

theorem mapGet_none_runEvents (apiKey : String) (id : String) :
    ∀ (evs : List McpEvent) (st : McpState),
      mapGet st.transports id = none →
      (∀ e ∈ evs, postWithFreshId id e = false) →
      mapGet (runEvents apiKey st evs).transports id = none := by
  intro evs
  induction evs with
  | nil => intro st h _; simpa [runEvents] using h
  | cons e evs ih =>
      intro st h hall
      rw [runEvents_cons]
      exact ih _ (mapGet_none_stepState apiKey st e id (hall e (List.mem_cons_self e evs)) h)
        (fun e' he' => hall e' (List.mem_cons_of_mem e he'))

theorem mcpCheckAuth_self (k : String) : mcpCheckAuth k (some k) = true := by
  simp [mcpCheckAuth]

theorem mcpPost_unauthorized (apiKey : String) (req : McpRequest) (fid : String)
    (fwd : ForwardBehavior) (st : McpState)
    (hauth : mcpCheckAuth apiKey req.apiKeyHeader = false) :
    mcpPost apiKey req fid fwd st = ⟨.sent mcpUnauthorizedResponse, none, st⟩ := by
  simp [mcpPost, hauth]

theorem mcpPost_existing (apiKey : String) (req : McpRequest) (fid : String)
    (fwd : ForwardBehavior) (st : McpState) (t : Nat)
    (hauth : mcpCheckAuth apiKey req.apiKeyHeader = true)
    (hsid : truthyStr req.sessionIdHeader = true)
    (hget : mapGet st.transports (req.sessionIdHeader.getD "") = some t) :
    mcpPost apiKey req fid fwd st =
      ⟨(match fwd with
        | .completes => .delegated t
        | .faults false => .sent mcpInternalErrorResponse
        | .faults true => .faultAfterHeaders t), some t, st⟩ := by
  simp [mcpPost, hauth, hsid, hget]

theorem mcpPost_create (apiKey : String) (req : McpRequest) (fid : String)
    (fwd : ForwardBehavior) (st : McpState)
    (hauth : mcpCheckAuth apiKey req.apiKeyHeader = true)
    (hsid : truthyStr req.sessionIdHeader = false)
    (hinit : req.bodyIsInit = true) :
    mcpPost apiKey req fid fwd st =
      ⟨(match fwd with
        | .completes => .delegated st.nextTransport
        | .faults false => .sent mcpInternalErrorResponse
        | .faults true => .faultAfterHeaders st.nextTransport),
       some st.nextTransport,
       ⟨mapSet st.transports fid st.nextTransport, st.nextTransport + 1⟩⟩ := by
  simp [mcpPost, hauth, hsid, hinit]

theorem mcpPost_reject_unknown (apiKey : String) (req : McpRequest) (fid : String)
    (fwd : ForwardBehavior) (st : McpState)
    (hauth : mcpCheckAuth apiKey req.apiKeyHeader = true)
    (hsid : truthyStr req.sessionIdHeader = true)
    (hget : mapGet st.transports (req.sessionIdHeader.getD "") = none) :
    mcpPost apiKey req fid fwd st = ⟨.sent mcpBadRequestResponse, none, st⟩ := by
  simp [mcpPost, hauth, hsid, hget]

theorem mcpPost_reject_noinit (apiKey : String) (req : McpRequest) (fid : String)
    (fwd : ForwardBehavior) (st : McpState)
    (hauth : mcpCheckAuth apiKey req.apiKeyHeader = true)
    (hsid : truthyStr req.sessionIdHeader = false)
    (hinit : req.bodyIsInit = false) :
    mcpPost apiKey req fid fwd st = ⟨.sent mcpBadRequestResponse, none, st⟩ := by
  simp [mcpPost, hauth, hsid, hinit]

theorem mcpGetDelete_unauthorized (apiKey : String) (req : McpRequest)
    (fwd : ForwardBehavior) (st : McpState)
    (hauth : mcpCheckAuth apiKey req.apiKeyHeader = false) :
    mcpGetDelete apiKey req fwd st = ⟨.sent mcpUnauthorizedResponse, none⟩ := by
  simp [mcpGetDelete, hauth]

theorem mcpGetDelete_reject (apiKey : String) (req : McpRequest)
    (fwd : ForwardBehavior) (st : McpState)
    (hauth : mcpCheckAuth apiKey req.apiKeyHeader = true)
    (hnone : (if truthyStr req.sessionIdHeader
              then mapGet st.transports (req.sessionIdHeader.getD "")
              else none) = none) :
    mcpGetDelete apiKey req fwd st = ⟨.sent invalidSessionText, none⟩ := by
  simp only [mcpGetDelete, hauth]
  rw [hnone]
  simp

theorem mcpGetDelete_forward (apiKey : String) (req : McpRequest)
    (fwd : ForwardBehavior) (st : McpState) (t : Nat)
    (hauth : mcpCheckAuth apiKey req.apiKeyHeader = true)
    (hsid : truthyStr req.sessionIdHeader = true)
    (hget : mapGet st.transports (req.sessionIdHeader.getD "") = some t) :
    mcpGetDelete apiKey req fwd st =
      ⟨(match fwd with
        | .completes => .delegated t
        | .faults _ => .escapedFault t), some t⟩ := by
  simp [mcpGetDelete, hauth, hsid, hget]

theorem WFReg_create (st : McpState) (fid : String)
    (hw : WFReg st) (hfresh : mapGet st.transports fid = none) :
    WFReg ⟨mapSet st.transports fid st.nextTransport, st.nextTransport + 1⟩ := by
  obtain ⟨hnd, hlt⟩ := hw
  have hni := (mapGet_eq_none_iff st.transports fid).mp hfresh
  constructor
  · rw [mapSet_of_get_none _ _ _ hfresh, List.map_append]
    refine List.Nodup.append hnd (List.nodup_singleton fid) ?_
    intro a ha hb
    rcases List.mem_map.mp ha with ⟨p, hp, rfl⟩
    exact hni p hp (List.mem_singleton.mp hb)
  · intro p hp
    rw [mapSet_of_get_none _ _ _ hfresh] at hp
    rcases List.mem_append.mp hp with h | h
    · exact Nat.lt_succ_of_lt (hlt p h)
    · rw [List.mem_singleton.mp h]
      exact Nat.lt_succ_self _

theorem parseInt_jsOrStr_default (v : Option String) :
    parseIntJs (jsOrStr v "20") = if truthyStr v then parseIntJs (v.getD "") else .int 20 := by
  cases v with
  | none => simp [jsOrStr, truthyStr]; decide
  | some s =>
      by_cases h : s = ""
      · simp [jsOrStr, truthyStr, h]; decide
      · simp [jsOrStr, truthyStr, h]

/-- The spec-side matching predicate of claim C9: the member's name or
real_name contains the query as a case-insensitive substring; a member
lacking both fields matches nothing. -/
def specUserMatches (query : String) (u : Member) : Bool :=
  (match u.name with
   | some n => strIncludes (lowerStr n) (lowerStr query)
   | none => false) ||
  (match u.real_name with
   | some r => strIncludes (lowerStr r) (lowerStr query)
   | none => false)

/-- Claim C7: an authenticated POST /messages/send whose body lacks channel
or text (absent or empty) gets 400 with the exact bad_request body and the
capability client is not invoked; with both fields present and non-empty,
sendMessage is invoked with exactly those values (and the result returned
with status 200 on success, 500 on failure). -/
theorem claim_C7 (apiKey : String) (body : SendBody) (up : UpstreamOutcome PostMessageOk) :
    ((truthyStr body.channel = false ∨ truthyStr body.text = false) →
      sendMessageRoute apiKey (some apiKey) body up =
        ⟨⟨400, .json (.obj [("ok", .bool false), ("error", .str "bad_request"),
            ("detail", .str "channel and text are required")])⟩, []⟩) ∧
    (∀ ch tx, body.channel = some ch → body.text = some tx → ch ≠ "" → tx ≠ "" →
      sendMessageRoute apiKey (some apiKey) body up =
        ⟨⟨((SlackService.sendMessage ch tx up).1).httpStatus,
          .json ((SlackService.sendMessage ch tx up).1).toJson⟩, [.sendMessage ch tx]⟩) := by
  constructor
  · intro h
    rcases h with h | h
    · simp [sendMessageRoute, requireApiKey, h]
    · simp [sendMessageRoute, requireApiKey, h]
  · intro ch tx hch htx hc ht
    simp [sendMessageRoute, requireApiKey, hch, htx, truthyStr, hc, ht]

/-- Claim C7 witness: the concrete scenario with text only is rejected with
the exact 400 body and no capability call; with both fields the client is
called with those values. -/
theorem claim_C7_witness :
    sendMessageRoute "k" (some "k") ⟨none, some "Hello"⟩ (.ok ⟨"1.0", "C01"⟩) =
      ⟨⟨400, .json (.obj [("ok", .bool false), ("error", .str "bad_request"),
          ("detail", .str "channel and text are required")])⟩, []⟩ ∧
    sendMessageRoute "k" (some "k") ⟨some "C01", some "Hello"⟩ (.ok ⟨"1.0", "C01"⟩) =
      ⟨⟨((SlackService.sendMessage "C01" "Hello" (.ok ⟨"1.0", "C01"⟩)).1).httpStatus,
        .json ((SlackService.sendMessage "C01" "Hello" (.ok ⟨"1.0", "C01"⟩)).1).toJson⟩,
       [.sendMessage "C01" "Hello"]⟩ :=
  ⟨(claim_C7 "k" ⟨none, some "Hello"⟩ (.ok ⟨"1.0", "C01"⟩)).1 (Or.inl rfl),
   (claim_C7 "k" ⟨some "C01", some "Hello"⟩ (.ok ⟨"1.0", "C01"⟩)).2 "C01" "Hello"
     rfl rfl (by decide) (by decide)⟩

/-- Claim C10: on the authenticated history route, the limit forwarded to
the capability client is 20 exactly when the limit query parameter is
absent or empty, and parseInt(limit, 10) otherwise; in particular a present
non-numeric limit string forwards NaN rather than the default. -/
theorem claim_C10 (apiKey cid : String) (limitQ cursorQ : Option String)
    (up : UpstreamOutcome HistoryOk) :
    (channelHistoryRoute apiKey (some apiKey) cid limitQ cursorQ up).capCalls
      = [.getChannelHistory cid
          (some (if truthyStr limitQ then parseIntJs (limitQ.getD "") else .int 20))
          (if truthyStr cursorQ then cursorQ else none)] ∧
    parseIntJs "abc" = .nan ∧
    (channelHistoryRoute apiKey (some apiKey) cid (some "abc") cursorQ up).capCalls
      = [.getChannelHistory cid (some .nan)
          (if truthyStr cursorQ then cursorQ else none)] := by
  refine ⟨?_, by decide, ?_⟩
  · simp [channelHistoryRoute, requireApiKey, parseInt_jsOrStr_default]
  · have h := parseInt_jsOrStr_default (some "abc")
    simp [channelHistoryRoute, requireApiKey, parseInt_jsOrStr_default]
    decide

/-- Claim C8: when the caller omits the optional parameter, the history
surfaces invoke the capability client with limit 20 and the search surfaces
with count 20: the REST history and search routes (absent or empty query
parameter), the RPC tools read_dm_history and search_messages (omitted zod
parameter, defaulted to 20), and SlackService.getChannelHistory and
searchMessages themselves (omitted argument, default parameter 20, passed
through to the upstream call). -/
theorem claim_C8 (apiKey cid q cursor : String) (cursorQ lq cq : Option String)
    (upH : UpstreamOutcome HistoryOk) (upS : UpstreamOutcome SearchOk)
    (hlq : truthyStr lq = false) (hcq : truthyStr cq = false) (hq : q ≠ "") :
    (channelHistoryRoute apiKey (some apiKey) cid lq cursorQ upH).capCalls
      = [.getChannelHistory cid (some (.int 20)) (if truthyStr cursorQ then cursorQ else none)] ∧
    (searchRoute apiKey (some apiKey) (some q) cq upS).capCalls
      = [.searchMessages q (some (.int 20))] ∧
    (McpTools.read_dm_history cid none upH).2
      = [.getChannelHistory cid (some (.int 20)) none] ∧
    (McpTools.search_messages q none upS).2 = [.searchMessages q (some (.int 20))] ∧
    (SlackService.getChannelHistory cid none (some cursor) upH).2
      = [.conversationsHistory cid (.int 20) (some cursor)] ∧
    (SlackService.searchMessages q none upS).2 = [.searchMessagesApi q (.int 20)] := by
  refine ⟨?_, ?_, ?_, ?_, ?_, ?_⟩
  · rw [show (channelHistoryRoute apiKey (some apiKey) cid lq cursorQ upH).capCalls
        = [.getChannelHistory cid (some (parseIntJs (jsOrStr lq "20")))
            (if truthyStr cursorQ then cursorQ else none)] by
      simp [channelHistoryRoute, requireApiKey]]
    rw [parseInt_jsOrStr_default, hlq]
    simp
  · have hqt : truthyStr (some q) = true := by simp [truthyStr, hq]
    rw [show (searchRoute apiKey (some apiKey) (some q) cq upS).capCalls
        = [.searchMessages q (some (parseIntJs (jsOrStr cq "20")))] by
      simp [searchRoute, requireApiKey, hqt]]
    rw [parseInt_jsOrStr_default, hcq]
    simp
  · cases upH <;> rfl
  · cases upS <;> rfl
  · cases upH <;> rfl
  · cases upS <;> rfl

/-- Claim C8 witness: with every optional parameter omitted, all six
surfaces pass 20 along. -/
theorem claim_C8_witness :
    (channelHistoryRoute "k" (some "k") "C01" none none (.ok ⟨none, none⟩)).capCalls
      = [.getChannelHistory "C01" (some (.int 20)) none] ∧
    (searchRoute "k" (some "k") (some "poke") none (.ok ⟨none⟩)).capCalls
      = [.searchMessages "poke" (some (.int 20))] ∧
    (McpTools.read_dm_history "C01" none (.ok ⟨none, none⟩)).2
      = [.getChannelHistory "C01" (some (.int 20)) none] ∧
    (McpTools.search_messages "poke" none (.ok ⟨none⟩)).2
      = [.searchMessages "poke" (some (.int 20))] ∧
    (SlackService.getChannelHistory "C01" none (some "cur") (.ok ⟨none, none⟩)).2
      = [.conversationsHistory "C01" (.int 20) (some "cur")] ∧
    (SlackService.searchMessages "poke" none (.ok ⟨none⟩)).2
      = [.searchMessagesApi "poke" (.int 20)] := by
  have h := claim_C8 "k" "C01" "poke" "cur" none none none
    (.ok ⟨none, none⟩) (.ok ⟨none⟩) rfl rfl (by decide)
  exact ⟨h.1, h.2.1, h.2.2.1, h.2.2.2.1, h.2.2.2.2.1, h.2.2.2.2.2⟩

/-- Claim C9: when the upstream user listing succeeds, searchUsers returns
ok:true with exactly the upstream members whose name or real_name contains
the query as a case-insensitive substring, in upstream order, each
projected to the three fields id, name, real_name (any other upstream
field is dropped); a query matching no member yields ok:true with an empty
users list, not a failure. -/
theorem claim_C9 (query : String) (members : List Member) :
    SlackService.searchUsers query (.ok ⟨some members⟩)
      = (.success [("users", .arr ((members.filter (specUserMatches query)).map
          SlackService.memberProjection))], [.usersList]) ∧
    (∀ u : Member, SlackService.memberProjection u
        = SlackService.memberProjection ⟨u.id, u.name, u.real_name, []⟩) ∧
    (members.filter (specUserMatches query) = [] →
      SlackService.searchUsers query (.ok ⟨some members⟩)
        = (.success [("users", .arr [])], [.usersList])) := by
  have hpt : ∀ u ∈ members, SlackService.memberMatches query u = specUserMatches query u := by
    intro u _
    unfold SlackService.memberMatches specUserMatches
    exact Bool.or_comm _ _
  have hf : members.filter (SlackService.memberMatches query)
      = members.filter (specUserMatches query) := List.filter_congr hpt
  refine ⟨?_, ?_, ?_⟩
  · simp [SlackService.searchUsers, hf]
  · intro u; rfl
  · intro h
    simp [SlackService.searchUsers, hf, h]

/-- Claim C9 witness: a query matching none of the listed members yields
ok:true with an empty users list. -/
theorem claim_C9_witness :
    SlackService.searchUsers "zz" (.ok ⟨some [⟨some "U2", none, none, []⟩]⟩)
      = (.success [("users", .arr [])], [.usersList]) :=
  (claim_C9 "zz" [⟨some "U2", none, none, []⟩]).2.2 rfl

/-- Claim C3: a Failure result from the capability client is delivered as
HTTP 500 with the result object as the body verbatim on the REST send
route, while every RPC tool handler wraps the same failure as a successful
reply (isError absent, modelled false) whose text payload is the JSON
serialization of that result — never a protocol-level RPC error. -/
theorem claim_C3 (apiKey ch tx cid q uid : String) (hch : ch ≠ "") (htx : tx ≠ "")
    (lim cnt : Option JsNum) (de : Option String) (m : String) :
    (SlackService.sendMessage ch tx (.thrown de m)).1
      = ApiResponse.failure (jsOrStr de "slack_error") m ∧
    sendMessageRoute apiKey (some apiKey) ⟨some ch, some tx⟩ (.thrown de m)
      = ⟨⟨500, .json (ApiResponse.failure (jsOrStr de "slack_error") m).toJson⟩,
         [.sendMessage ch tx]⟩ ∧
    (McpTools.send_message ch tx (.thrown de m)).1
      = ⟨[⟨"text", (ApiResponse.failure (jsOrStr de "slack_error") m).toJson.stringify⟩],
         false⟩ ∧
    (McpTools.read_dm_history cid lim (.thrown de m)).1
      = ⟨[⟨"text", (ApiResponse.failure (jsOrStr de "slack_error") m).toJson.stringify⟩],
         false⟩ ∧
    (McpTools.search_messages q cnt (.thrown de m)).1
      = ⟨[⟨"text", (ApiResponse.failure (jsOrStr de "slack_error") m).toJson.stringify⟩],
         false⟩ ∧
    (McpTools.find_user q (.thrown de m)).1
      = ⟨[⟨"text", (ApiResponse.failure (jsOrStr de "slack_error") m).toJson.stringify⟩],
         false⟩ ∧
    (McpTools.open_dm uid (.thrown de m)).1
      = ⟨[⟨"text", (ApiResponse.failure (jsOrStr de "slack_error") m).toJson.stringify⟩],
         false⟩ := by
  refine ⟨rfl, ?_, rfl, rfl, rfl, rfl, rfl⟩
  simp [sendMessageRoute, requireApiKey, truthyStr, hch, htx,
        SlackService.sendMessage, ApiResponse.httpStatus]

/-- Claim C3 witness: a channel_not_found upstream failure is delivered as
HTTP 500 verbatim on REST and as a successful reply wrapping its JSON
serialization on the send_message tool. -/
theorem claim_C3_witness :
    sendMessageRoute "k" (some "k") ⟨some "C_BAD", some "Hello"⟩
        (.thrown (some "channel_not_found") "channel_not_found")
      = ⟨⟨500, .json (ApiResponse.failure "channel_not_found" "channel_not_found").toJson⟩,
         [.sendMessage "C_BAD" "Hello"]⟩ ∧
    (McpTools.send_message "C_BAD" "Hello"
        (.thrown (some "channel_not_found") "channel_not_found")).1
      = ⟨[⟨"text",
          (ApiResponse.failure "channel_not_found" "channel_not_found").toJson.stringify⟩],
         false⟩ := by
  have h := claim_C3 "k" "C_BAD" "Hello" "C01" "poke" "U1" (by decide) (by decide)
    none none (some "channel_not_found") "channel_not_found"
  exact ⟨h.2.1, h.2.2.1⟩

/-- Claim C4: a request whose x-api-key header is absent or differs from
the configured secret gets 401 with the protocol-appropriate unauthorized
body (REST: the ok:false unauthorized object; RPC: the JSON-RPC -32000
envelope), no capability call is made, the registry is unchanged, and
nothing is forwarded to any transport. -/
theorem claim_C4 (apiKey : String) (provided : Option String) (h : provided ≠ some apiKey)
    (body : SendBody) (cid : String) (lq cq qq cursorQ : Option String)
    (up1 : UpstreamOutcome PostMessageOk) (up2 : UpstreamOutcome HistoryOk)
    (up3 : UpstreamOutcome SearchOk) (req : McpRequest) (fid : String)
    (fwd : ForwardBehavior) (st : McpState) (hreq : req.apiKeyHeader = provided) :
    requireApiKey apiKey provided = .reject ⟨401, .json unauthorizedRestBody⟩ ∧
    sendMessageRoute apiKey provided body up1 = ⟨⟨401, .json unauthorizedRestBody⟩, []⟩ ∧
    channelHistoryRoute apiKey provided cid lq cursorQ up2
      = ⟨⟨401, .json unauthorizedRestBody⟩, []⟩ ∧
    searchRoute apiKey provided qq cq up3 = ⟨⟨401, .json unauthorizedRestBody⟩, []⟩ ∧
    mcpPost apiKey req fid fwd st = ⟨.sent mcpUnauthorizedResponse, none, st⟩ ∧
    mcpGetDelete apiKey req fwd st = ⟨.sent mcpUnauthorizedResponse, none⟩ := by
  have ha : mcpCheckAuth apiKey req.apiKeyHeader = false := by
    simp [mcpCheckAuth, hreq, h]
  refine ⟨?_, ?_, ?_, ?_, ?_, ?_⟩
  · simp [requireApiKey, h]
  · simp [sendMessageRoute, requireApiKey, h]
  · simp [channelHistoryRoute, requireApiKey, h]
  · simp [searchRoute, requireApiKey, h]
  · exact mcpPost_unauthorized apiKey req fid fwd st ha
  · exact mcpGetDelete_unauthorized apiKey req fwd st ha

/-- Claim C4 witness: a request with no key and one with a wrong key are
both rejected on the REST and RPC surfaces with no downstream effect. -/
theorem claim_C4_witness :
    sendMessageRoute "k" none ⟨some "C01", some "Hello"⟩ (.ok ⟨"1.0", "C01"⟩)
      = ⟨⟨401, .json unauthorizedRestBody⟩, []⟩ ∧
    mcpPost "k" ⟨some "wrong", some "s", true⟩ "f" .completes ⟨[("s", 0)], 1⟩
      = ⟨.sent mcpUnauthorizedResponse, none, ⟨[("s", 0)], 1⟩⟩ := by
  have h1 := claim_C4 "k" none (by simp) ⟨some "C01", some "Hello"⟩ "C01"
    none none none none (.ok ⟨"1.0", "C01"⟩) (.ok ⟨none, none⟩) (.ok ⟨none⟩)
    ⟨none, none, true⟩ "f" .completes ⟨[], 0⟩ rfl
  have h2 := claim_C4 "k" (some "wrong") (by simp) ⟨some "C01", some "Hello"⟩ "C01"
    none none none none (.ok ⟨"1.0", "C01"⟩) (.ok ⟨none, none⟩) (.ok ⟨none⟩)
    ⟨some "wrong", some "s", true⟩ "f" .completes ⟨[("s", 0)], 1⟩ rfl
  exact ⟨h1.2.1, h2.2.2.2.2.1⟩

theorem mcpPost_forwarded_result (apiKey : String) (req : McpRequest) (fid : String)
    (fwd : ForwardBehavior) (st : McpState) (t : Nat)
    (h : (mcpPost apiKey req fid fwd st).forwardedTo = some t) :
    (mcpPost apiKey req fid fwd st).result
      = (match fwd with
         | .completes => .delegated t
         | .faults false => .sent mcpInternalErrorResponse
         | .faults true => .faultAfterHeaders t) := by
  by_cases ha : mcpCheckAuth apiKey req.apiKeyHeader = true
  · by_cases hs : truthyStr req.sessionIdHeader = true
    · cases hget : mapGet st.transports (req.sessionIdHeader.getD "") with
      | some u =>
          rw [mcpPost_existing apiKey req fid fwd st u ha hs hget] at h ⊢
          simp at h
          subst h
          cases fwd with
          | completes => rfl
          | faults b => cases b <;> rfl
      | none =>
          rw [mcpPost_reject_unknown apiKey req fid fwd st ha hs hget] at h
          simp at h
    · have hs' : truthyStr req.sessionIdHeader = false := by simpa using hs
      by_cases hinit : req.bodyIsInit = true
      · rw [mcpPost_create apiKey req fid fwd st ha hs' hinit] at h ⊢
        simp at h
        subst h
        cases fwd with
        | completes => rfl
        | faults b => cases b <;> rfl
      · have hinit' : req.bodyIsInit = false := by simpa using hinit
        rw [mcpPost_reject_noinit apiKey req fid fwd st ha hs' hinit'] at h
        simp at h
  · have ha' : mcpCheckAuth apiKey req.apiKeyHeader = false := by simpa using ha
    rw [mcpPost_unauthorized apiKey req fid fwd st ha'] at h
    simp at h

theorem mcpGetDelete_forwarded_result (apiKey : String) (req : McpRequest)
    (fwd : ForwardBehavior) (st : McpState) (t : Nat)
    (h : (mcpGetDelete apiKey req fwd st).forwardedTo = some t) :
    (mcpGetDelete apiKey req fwd st).result
      = (match fwd with
         | .completes => .delegated t
         | .faults _ => .escapedFault t) := by
  by_cases ha : mcpCheckAuth apiKey req.apiKeyHeader = true
  · by_cases hs : truthyStr req.sessionIdHeader = true
    · cases hget : mapGet st.transports (req.sessionIdHeader.getD "") with
      | some u =>
          rw [mcpGetDelete_forward apiKey req fwd st u ha hs hget] at h ⊢
          simp at h
          subst h
          cases fwd <;> rfl
      | none =>
          rw [mcpGetDelete_reject apiKey req fwd st ha (by rw [if_pos hs, hget])] at h
          simp at h
    · have hs' : truthyStr req.sessionIdHeader = false := by simpa using hs
      rw [mcpGetDelete_reject apiKey req fwd st ha (by rw [hs']; simp)] at h
      simp at h
  · have ha' : mcpCheckAuth apiKey req.apiKeyHeader = false := by simpa using ha
    rw [mcpGetDelete_unauthorized apiKey req fwd st ha'] at h
    simp at h

/-- Claim C1: for every authenticated POST to /mcp exactly one of three
outcomes occurs. A live session id (present, i.e. non-empty as the code
reads headers, and known to the registry) forwards to that session's
transport with the registry unchanged; an absent id with an initialize
body creates a session under the fresh random id, stores it, and forwards
to the fresh transport; in every other case (id absent and not an
initialize call, or id present but unknown) the response is 400 with the
JSON-RPC bad-request envelope, nothing is forwarded, and the registry is
unchanged. -/
theorem claim_C1 (apiKey : String) (req : McpRequest) (fid : String) (fwd : ForwardBehavior)
    (st : McpState) (hauth : req.apiKeyHeader = some apiKey) :
    (∀ t, truthyStr req.sessionIdHeader = true →
      mapGet st.transports (req.sessionIdHeader.getD "") = some t →
      (mcpPost apiKey req fid fwd st).forwardedTo = some t ∧
      (mcpPost apiKey req fid fwd st).state = st) ∧
    (truthyStr req.sessionIdHeader = false → req.bodyIsInit = true →
      (mcpPost apiKey req fid fwd st).forwardedTo = some st.nextTransport ∧
      (mcpPost apiKey req fid fwd st).state
        = ⟨mapSet st.transports fid st.nextTransport, st.nextTransport + 1⟩ ∧
      mapGet (mcpPost apiKey req fid fwd st).state.transports fid
        = some st.nextTransport) ∧
    ((truthyStr req.sessionIdHeader = true →
        mapGet st.transports (req.sessionIdHeader.getD "") = none) →
      (truthyStr req.sessionIdHeader = false → req.bodyIsInit = false) →
      (mcpPost apiKey req fid fwd st).result = .sent mcpBadRequestResponse ∧
      (mcpPost apiKey req fid fwd st).forwardedTo = none ∧
      (mcpPost apiKey req fid fwd st).state = st) := by
  have ha : mcpCheckAuth apiKey req.apiKeyHeader = true := by
    simp [mcpCheckAuth, hauth]
  refine ⟨?_, ?_, ?_⟩
  · intro t hs hget
    rw [mcpPost_existing apiKey req fid fwd st t ha hs hget]
    exact ⟨rfl, rfl⟩
  · intro hs hinit
    rw [mcpPost_create apiKey req fid fwd st ha hs hinit]
    refine ⟨rfl, rfl, ?_⟩
    rw [mapGet_mapSet]
    simp
  · intro h1 h2
    by_cases hs : truthyStr req.sessionIdHeader = true
    · rw [mcpPost_reject_unknown apiKey req fid fwd st ha hs (h1 hs)]
      exact ⟨rfl, rfl, rfl⟩
    · have hs' : truthyStr req.sessionIdHeader = false := by simpa using hs
      rw [mcpPost_reject_noinit apiKey req fid fwd st ha hs' (h2 hs')]
      exact ⟨rfl, rfl, rfl⟩

/-- Claim C1 witness: a known session id forwards to its transport with the
registry unchanged; an unknown id yields the 400 envelope and no session. -/
theorem claim_C1_witness :
    ((mcpPost "k" ⟨some "k", some "s", false⟩ "f" .completes ⟨[("s", 3)], 4⟩).forwardedTo
        = some 3 ∧
      (mcpPost "k" ⟨some "k", some "s", false⟩ "f" .completes ⟨[("s", 3)], 4⟩).state
        = ⟨[("s", 3)], 4⟩) ∧
    ((mcpPost "k" ⟨some "k", some "u", true⟩ "f" .completes ⟨[("s", 3)], 4⟩).result
        = .sent mcpBadRequestResponse ∧
      (mcpPost "k" ⟨some "k", some "u", true⟩ "f" .completes ⟨[("s", 3)], 4⟩).forwardedTo
        = none ∧
      (mcpPost "k" ⟨some "k", some "u", true⟩ "f" .completes ⟨[("s", 3)], 4⟩).state
        = ⟨[("s", 3)], 4⟩) :=
  ⟨(claim_C1 "k" ⟨some "k", some "s", false⟩ "f" .completes ⟨[("s", 3)], 4⟩ rfl).1 3
      (by decide) (by decide),
   (claim_C1 "k" ⟨some "k", some "u", true⟩ "f" .completes ⟨[("s", 3)], 4⟩ rfl).2.2
      (fun _ => by decide) (by intro h; exact absurd h (by decide))⟩

/-- Claim C2 counterexample: on GET /mcp (identically DELETE /mcp) no catch
is installed, so a fault raised by transport.handleRequest before any
response is sent escapes the handler: the handler result is an escaped
fault, not the 500 response with the -32603 envelope the claim requires. -/
theorem claim_C2_counterexample :
    (mcpGetDelete "k" ⟨some "k", some "s", false⟩ (.faults false) ⟨[("s", 0)], 1⟩).result
      = .escapedFault 0 ∧
    HandlerResult.escapedFault 0 ≠ .sent mcpInternalErrorResponse :=
  ⟨rfl, fun h => HandlerResult.noConfusion h⟩

/-- Claim C2 as amended: only the POST /mcp handler converts an uncaught
forwarding fault into the 500 response carrying the JSON-RPC -32603
envelope, and only when no response has been sent yet (a fault after
headers were sent is swallowed); the GET and DELETE handlers install no
catch, so a forwarding fault escapes them uncaught. -/
theorem claim_C2_amended (apiKey : String) (req : McpRequest) (fid : String)
    (st : McpState) (t : Nat) :
    ((mcpPost apiKey req fid (.faults false) st).forwardedTo = some t →
      (mcpPost apiKey req fid (.faults false) st).result
        = .sent mcpInternalErrorResponse) ∧
    ((mcpPost apiKey req fid (.faults true) st).forwardedTo = some t →
      (mcpPost apiKey req fid (.faults true) st).result = .faultAfterHeaders t) ∧
    (∀ hs, (mcpGetDelete apiKey req (.faults hs) st).forwardedTo = some t →
      (mcpGetDelete apiKey req (.faults hs) st).result = .escapedFault t) := by
  refine ⟨?_, ?_, ?_⟩
  · intro h
    rw [mcpPost_forwarded_result apiKey req fid (.faults false) st t h]
  · intro h
    rw [mcpPost_forwarded_result apiKey req fid (.faults true) st t h]
  · intro hs h
    rw [mcpGetDelete_forwarded_result apiKey req (.faults hs) st t h]

/-- Claim C2 witness: with a live session, a pre-response fault on POST is
converted to the -32603 response, while the same fault on GET escapes. -/
theorem claim_C2_amended_witness :
    (mcpPost "k" ⟨some "k", some "s", false⟩ "f" (.faults false) ⟨[("s", 0)], 1⟩).result
      = .sent mcpInternalErrorResponse ∧
    (mcpGetDelete "k" ⟨some "k", some "s", false⟩ (.faults true) ⟨[("s", 0)], 1⟩).result
      = .escapedFault 0 :=
  ⟨(claim_C2_amended "k" ⟨some "k", some "s", false⟩ "f" ⟨[("s", 0)], 1⟩ 0).1 rfl,
   (claim_C2_amended "k" ⟨some "k", some "s", false⟩ "f" ⟨[("s", 0)], 1⟩ 0).2.2 true rfl⟩

/-- Claim C5: a successful initialize with no session id stores the freshly
generated id (randomUUID modelled as an id not colliding with any live id)
bound to a transport instance distinct from every live one, leaves every
other session untouched, preserves the at-most-one-live-session-per-id
shape of the registry, and — as long as no event closes the session and
the id is never handed out again — every later request carrying that id
resolves through the registry to that same transport instance. -/
theorem claim_C5 (apiKey : String) (req : McpRequest) (fid : String)
    (fwd : ForwardBehavior) (st : McpState)
    (hauth : req.apiKeyHeader = some apiKey)
    (hsid : truthyStr req.sessionIdHeader = false)
    (hinit : req.bodyIsInit = true)
    (hfresh : mapGet st.transports fid = none)
    (hne : fid ≠ "")
    (hwf : WFReg st) :
    mapGet (mcpPost apiKey req fid fwd st).state.transports fid = some st.nextTransport ∧
    (mcpPost apiKey req fid fwd st).forwardedTo = some st.nextTransport ∧
    (∀ p ∈ st.transports, p.2 ≠ st.nextTransport) ∧
    (∀ id, id ≠ fid →
      mapGet (mcpPost apiKey req fid fwd st).state.transports id
        = mapGet st.transports id) ∧
    WFReg (mcpPost apiKey req fid fwd st).state ∧
    (∀ evs, (∀ e ∈ evs, closesId fid e = false ∧ postWithFreshId fid e = false) →
      mapGet (runEvents apiKey (mcpPost apiKey req fid fwd st).state evs).transports fid
        = some st.nextTransport ∧
      (∀ req2 fid2 fwd2, req2.apiKeyHeader = some apiKey →
        req2.sessionIdHeader = some fid →
        (mcpPost apiKey req2 fid2 fwd2
            (runEvents apiKey (mcpPost apiKey req fid fwd st).state evs)).forwardedTo
          = some st.nextTransport)) := by
  have ha : mcpCheckAuth apiKey req.apiKeyHeader = true := by
    simp [mcpCheckAuth, hauth]
  rw [mcpPost_create apiKey req fid fwd st ha hsid hinit]
  have hself : mapGet (mapSet st.transports fid st.nextTransport) fid
      = some st.nextTransport := by
    rw [mapGet_mapSet]
    simp
  refine ⟨hself, rfl, ?_, ?_, ?_, ?_⟩
  · exact fun p hp => Nat.ne_of_lt (hwf.2 p hp)
  · intro id hid
    rw [mapGet_mapSet, if_neg hid]
  · exact WFReg_create st fid hwf hfresh
  · intro evs hevs
    have hrun := mapGet_runEvents apiKey fid st.nextTransport evs
      ⟨mapSet st.transports fid st.nextTransport, st.nextTransport + 1⟩ hself hevs
    refine ⟨hrun, ?_⟩
    intro req2 fid2 fwd2 hauth2 hsid2
    have ha2 : mcpCheckAuth apiKey req2.apiKeyHeader = true := by
      simp [mcpCheckAuth, hauth2]
    have hs2 : truthyStr req2.sessionIdHeader = true := by
      simp [hsid2, truthyStr, hne]
    have hget2 : mapGet (runEvents apiKey
          ⟨mapSet st.transports fid st.nextTransport, st.nextTransport + 1⟩ evs).transports
          (req2.sessionIdHeader.getD "") = some st.nextTransport := by
      rw [hsid2]
      exact hrun
    rw [mcpPost_existing apiKey req2 fid2 fwd2 _ st.nextTransport ha2 hs2 hget2]

/-- Claim C5 witness: initializing on an empty registry stores the fresh id
bound to transport 0, and after an unrelated close event a POST carrying
the id still reaches transport 0. -/
theorem claim_C5_witness :
    mapGet (mcpPost "k" ⟨some "k", none, true⟩ "f" .completes ⟨[], 0⟩).state.transports "f"
      = some 0 ∧
    (mcpPost "k" ⟨some "k", none, true⟩ "f" .completes ⟨[], 0⟩).forwardedTo = some 0 ∧
    (mcpPost "k" ⟨some "k", some "f", false⟩ "g" .completes
        (runEvents "k" (mcpPost "k" ⟨some "k", none, true⟩ "f" .completes ⟨[], 0⟩).state
          [.close "h"])).forwardedTo = some 0 := by
  have h := claim_C5 "k" ⟨some "k", none, true⟩ "f" .completes ⟨[], 0⟩
    rfl rfl rfl rfl (by decide) ⟨List.nodup_nil, by simp⟩
  have hc := h.2.2.2.2.2 [.close "h"] (by decide)
  exact ⟨h.1, h.2.1, hc.2 ⟨some "k", some "f", false⟩ "g" .completes rfl rfl⟩

/-- Claim C6: once a session's teardown callback has removed its registry
entry, its id resolves to nothing, every request carrying it is rejected —
POST with the 400 JSON-RPC bad-request envelope, GET and DELETE with the
400 plain-text rejection (so a second DELETE repeats the same rejection
rather than failing fatally) — the registry is left unchanged, and, as
long as the random id generator never reissues the id, this persists over
any further traffic, so the closed id never reaches an engine again. -/
theorem claim_C6 (apiKey id : String) (st0 : McpState) (hne : id ≠ "") :
    mapGet (mcpCloseEvent id st0).transports id = none ∧
    (∀ req fid fwd, req.apiKeyHeader = some apiKey → req.sessionIdHeader = some id →
      mcpPost apiKey req fid fwd (mcpCloseEvent id st0)
        = ⟨.sent mcpBadRequestResponse, none, mcpCloseEvent id st0⟩) ∧
    (∀ req fwd, req.apiKeyHeader = some apiKey → req.sessionIdHeader = some id →
      mcpGetDelete apiKey req fwd (mcpCloseEvent id st0)
        = ⟨.sent invalidSessionText, none⟩) ∧
    (∀ evs, (∀ e ∈ evs, postWithFreshId id e = false) →
      mapGet (runEvents apiKey (mcpCloseEvent id st0) evs).transports id = none ∧
      (∀ req fid fwd, req.apiKeyHeader = some apiKey → req.sessionIdHeader = some id →
        mcpPost apiKey req fid fwd (runEvents apiKey (mcpCloseEvent id st0) evs)
          = ⟨.sent mcpBadRequestResponse, none,
             runEvents apiKey (mcpCloseEvent id st0) evs⟩) ∧
      (∀ req fwd, req.apiKeyHeader = some apiKey → req.sessionIdHeader = some id →
        mcpGetDelete apiKey req fwd (runEvents apiKey (mcpCloseEvent id st0) evs)
          = ⟨.sent invalidSessionText, none⟩)) := by
  have hgone : mapGet (mcpCloseEvent id st0).transports id = none := by
    simp only [mcpCloseEvent]
    rw [mapGet_mapDelete]
    simp
  have hreject : ∀ st : McpState, mapGet st.transports id = none →
      (∀ req fid fwd, req.apiKeyHeader = some apiKey → req.sessionIdHeader = some id →
        mcpPost apiKey req fid fwd st = ⟨.sent mcpBadRequestResponse, none, st⟩) ∧
      (∀ req fwd, req.apiKeyHeader = some apiKey → req.sessionIdHeader = some id →
        mcpGetDelete apiKey req fwd st = ⟨.sent invalidSessionText, none⟩) := by
    intro st hnone
    constructor
    · intro req fid fwd hauth hsid
      have ha : mcpCheckAuth apiKey req.apiKeyHeader = true := by
        simp [mcpCheckAuth, hauth]
      have hs : truthyStr req.sessionIdHeader = true := by
        simp [hsid, truthyStr, hne]
      exact mcpPost_reject_unknown apiKey req fid fwd st ha hs (by rw [hsid]; exact hnone)
    · intro req fwd hauth hsid
      have ha : mcpCheckAuth apiKey req.apiKeyHeader = true := by
        simp [mcpCheckAuth, hauth]
      have hs : truthyStr req.sessionIdHeader = true := by
        simp [hsid, truthyStr, hne]
      exact mcpGetDelete_reject apiKey req fwd st ha
        (by rw [if_pos hs, hsid]; exact hnone)
  refine ⟨hgone, (hreject _ hgone).1, (hreject _ hgone).2, ?_⟩
  intro evs hevs
  have hrun := mapGet_none_runEvents apiKey id evs (mcpCloseEvent id st0) hgone hevs
  exact ⟨hrun, (hreject _ hrun).1, (hreject _ hrun).2⟩

/-- Claim C6 witness: after closing session s, a POST, a first DELETE and a
second DELETE carrying s are all rejected the same way, with the registry
left without s. -/
theorem claim_C6_witness :
    mapGet (mcpCloseEvent "s" ⟨[("s", 0)], 1⟩).transports "s" = none ∧
    mcpPost "k" ⟨some "k", some "s", true⟩ "f" .completes (mcpCloseEvent "s" ⟨[("s", 0)], 1⟩)
      = ⟨.sent mcpBadRequestResponse, none, mcpCloseEvent "s" ⟨[("s", 0)], 1⟩⟩ ∧
    mcpGetDelete "k" ⟨some "k", some "s", false⟩ .completes
        (mcpCloseEvent "s" ⟨[("s", 0)], 1⟩)
      = ⟨.sent invalidSessionText, none⟩ ∧
    mcpGetDelete "k" ⟨some "k", some "s", false⟩ .completes
        (runEvents "k" (mcpCloseEvent "s" ⟨[("s", 0)], 1⟩)
          [.getOrDelete ⟨some "k", some "s", false⟩ .completes])
      = ⟨.sent invalidSessionText, none⟩ := by
  have h := claim_C6 "k" "s" ⟨[("s", 0)], 1⟩ (by decide)
  have he := h.2.2.2 [.getOrDelete ⟨some "k", some "s", false⟩ .completes] (by decide)
  exact ⟨h.1, h.2.1 ⟨some "k", some "s", true⟩ "f" .completes rfl rfl,
         h.2.2.1 ⟨some "k", some "s", false⟩ .completes rfl rfl,
         he.2.2 ⟨some "k", some "s", false⟩ .completes rfl rfl⟩

